import Mathlib

/-!
Verification of the CloneSphere core (backend/app/llm/llm_cloner.py) against its
natural-language specification.

The Python module is shallowly embedded below:
* pure helper functions (`filter_meaningful_images`, `_simple_content_validation`,
  `_validate_smart_image_implementation`, `_extract_html`, `_fix_html`,
  `_create_error_page`) are translated into executable Lean functions over
  `String` / `List Char`;
* Python float scores are modelled as exact rationals `ℚ` (every claim under
  scrutiny is an order/control-flow property, not a rounding property);
* the effectful collaborators of `clone_website` (the LLM call, the headless
  renderer, the SSIM comparison, and the two in-process scorers viewed as
  possibly-raising calls) are modelled as `Except String`-valued oracles, and
  the orchestrator's try/except structure is embedded as explicit `Except`
  plumbing;
* Python regular-expression substitutions used by the normalizer are embedded
  as direct left-to-right scanners over `List Char`, with fuel equal to the
  input length so that every definition is structurally recursive and
  computable by the kernel.
-/

/-! ## Basic string machinery (Python `in`, `startswith`, `strip`, `split('/')[-1]`) -/

/-- Is `p` a prefix of `l` (Python `startswith` on char lists)? -/
def isPre : List Char → List Char → Bool
  | [], _ => true
  | _ :: _, [] => false
  | a :: as, b :: bs => a == b && isPre as bs

/-- Does pattern `p` occur as a contiguous substring of `hay` (Python `in`)? -/
def subStr (p : List Char) : List Char → Bool
  | [] => isPre p []
  | c :: t => isPre p (c :: t) || subStr p t

/-- Python `pat in hay` on strings. -/
def containsS (hay pat : String) : Bool := subStr pat.data hay.data

/-- Python whitespace for `str.strip`. -/
def pyWs (c : Char) : Bool :=
  c = ' ' || c = '\t' || c = '\n' || c = '\r' || c = '\x0b' || c = '\x0c'

/-- Python `str.strip()` on char lists. -/
def pyStripL (l : List Char) : List Char :=
  ((l.dropWhile pyWs).reverse.dropWhile pyWs).reverse

/-- Python `str.strip()`. -/
def pyStrip (s : String) : String := ⟨pyStripL s.data⟩

/-- The trailing path segment: Python `s.split('/')[-1]`. -/
def lastSegL (l : List Char) : List Char :=
  l.foldl (fun acc c => if c = '/' then [] else acc ++ [c]) []

/-- Python `s.split('/')[-1]` on strings. -/
def lastSegOf (s : String) : String := ⟨lastSegL s.data⟩

/-- Python `str.lower()` (per-character lowering; kernel-reducible, unlike
`String.toLower`'s byte-position implementation). -/
def lowerS (s : String) : String := ⟨s.data.map Char.toLower⟩

theorem isPre_append {p l : List Char} (m : List Char) (h : isPre p l = true) :
    isPre p (l ++ m) = true := by
  induction p generalizing l with
  | nil => simp [isPre]
  | cons a as ih =>
    cases l with
    | nil => simp [isPre] at h
    | cons b bs =>
      simp only [isPre, Bool.and_eq_true] at h ⊢
      exact ⟨h.1, ih h.2⟩

theorem subStr_nil_pat (m : List Char) : subStr [] m = true := by
  cases m <;> simp [subStr, isPre]

theorem subStr_append_left {p l : List Char} (m : List Char) (h : subStr p l = true) :
    subStr p (l ++ m) = true := by
  induction l with
  | nil =>
    cases p with
    | nil => exact subStr_nil_pat m
    | cons c cs => simp [subStr, isPre] at h
  | cons c t ih =>
    simp only [subStr, Bool.or_eq_true] at h
    rcases h with h | h
    · simp only [List.cons_append, subStr, Bool.or_eq_true]
      exact Or.inl (isPre_append m h)
    · simp only [List.cons_append, subStr, Bool.or_eq_true]
      exact Or.inr (ih h)

theorem str_data_append (a b : String) : (a ++ b).data = a.data ++ b.data := rfl

/-! ## Data model: image descriptors (ScrapedDocument's `image_descriptions` entries) -/

/-- One detected image as handed to `filter_meaningful_images`:
`{width, height, src, alt, context, position.top}`.  `posTop = none` models a
missing `position` key (the code then defaults the top coordinate to 999). -/
structure ImageDesc where
  width : Int
  height : Int
  src : String
  alt : String
  context : String
  posTop : Option Int
deriving DecidableEq, Repr

/-- The augmented per-image record the classifier builds:
`{**img, 'actual_url': …, 'area': …, 'suggested_type': …}`. -/
structure ImgData where
  base : ImageDesc
  actualUrl : String
  area : Int
  suggestedType : String
deriving DecidableEq, Repr

/-- The synthetic placeholder URL for inline-data (or missing) sources:
`f"https://picsum.photos/{int(width) if width > 0 else 400}/{int(height) if height > 0 else 300}"`. -/
def placeholderUrl (w h : Int) : String :=
  "https://picsum.photos/" ++ toString (if 0 < w then w else 400) ++ "/" ++
    toString (if 0 < h then h else 300)

/-- `actual_url = src if src and not src.startswith('data:') else placeholder`. -/
def actualUrlOf (img : ImageDesc) : String :=
  if img.src ≠ "" ∧ isPre "data:".data img.src.data = false then img.src
  else placeholderUrl img.width img.height

/-- The classification cascade of `filter_meaningful_images`, evaluated per image
(the code lowercases `alt` and `context` on read and `src` inside the logo test). -/
def suggestedTypeOf (img : ImageDesc) : String :=
  if img.width ≤ 32 ∧ img.height ≤ 32 then "icon"
  else if containsS (lowerS img.alt) "logo" = true ∨ containsS (lowerS img.src) "logo" = true ∨
      (img.width < 200 ∧ img.height < 100 ∧ img.posTop.getD 999 < 200) then "logo"
  else if 100 ≤ img.width ∨ 100 ≤ img.height then "content"
  else if containsS (lowerS img.context) "product" = true ∨
      containsS (lowerS img.context) "feature" = true ∨
      containsS (lowerS img.context) "hero" = true ∨
      containsS (lowerS img.context) "banner" = true ∨
      containsS (lowerS img.context) "main" = true then "content"
  else "icon"

/-- Build the augmented record for one image. -/
def classifyOne (img : ImageDesc) : ImgData :=
  { base := img
    actualUrl := actualUrlOf img
    area := img.width * img.height
    suggestedType := suggestedTypeOf img }

/-- Output of `filter_meaningful_images`. -/
structure ImageCategories where
  meaningful_images : List ImgData
  logos : List ImgData
  tiny_icons : List ImgData
deriving DecidableEq, Repr

/-- Stable descending insertion by `area`: an element inserted from the left goes
before later elements of equal area, matching Python's stable
`list.sort(key=lambda x: x['area'], reverse=True)`. -/
def insertAreaDesc (x : ImgData) : List ImgData → List ImgData
  | [] => [x]
  | y :: ys => if y.area ≤ x.area then x :: y :: ys else y :: insertAreaDesc x ys

/-- Stable sort by descending `area` (extensionally equal to Python's stable sort
with `key=area, reverse=True`). -/
def sortAreaDesc (l : List ImgData) : List ImgData := l.foldr insertAreaDesc []

/-- `filter_meaningful_images`: one classification pass appending each image to the
list named by its `suggested_type` (rendered here as classify-then-filter), then
`meaningful_images` and `logos` — and only those two — are sorted by descending
area; `tiny_icons` keeps input order. -/
def filter_meaningful_images (l : List ImageDesc) : ImageCategories :=
  let datas := l.map classifyOne
  { meaningful_images := sortAreaDesc (datas.filter (fun d => d.suggestedType == "content"))
    logos := sortAreaDesc (datas.filter (fun d => d.suggestedType == "logo"))
    tiny_icons := datas.filter (fun d => d.suggestedType == "icon") }

/-! ## Asset Fidelity Scorer (`_validate_smart_image_implementation`) -/

/-- The priority set: `meaningful_images + logos` (in the code's concatenation order). -/
def priorityImages (descs : List ImageDesc) : List ImgData :=
  (filter_meaningful_images descs).meaningful_images ++ (filter_meaningful_images descs).logos

/-- The individual codepoints of the icon character class
`[⚙️🔍📱💻⭐❤️🏠📧📞✓▶️◀️▲▼►◄]` (the emoji with variation selectors contribute
the base symbol and U+FE0F as separate class members, exactly as `re` treats them). -/
def iconChars : List Char :=
  ['⚙', '️', '🔍', '📱', '💻', '⭐', '❤', '🏠', '📧', '📞', '✓', '▶', '◀', '▲', '▼', '►', '◄']

/-- `len(re.findall(r'[⚙️🔍📱💻⭐❤️🏠📧📞✓▶️◀️▲▼►◄]', html))`. -/
def unicodeIconCount (html : String) : Nat :=
  (html.data.filter (fun c => iconChars.contains c)).length

/-- The per-image credit of the asset scorer: 1.0 for a verbatim `actual_url` or
original `src` occurrence, 0.8 for a trailing-path-segment match (attempted only
when `actual_url` does not contain `picsum.photos`), else 0. -/
def imageAward (html : String) (img : ImgData) : ℚ :=
  if img.actualUrl ≠ "" ∧ containsS html img.actualUrl = true then 1
  else if img.base.src ≠ "" ∧ containsS html img.base.src = true then 1
  else if img.actualUrl ≠ "" ∧ containsS img.actualUrl "picsum.photos" = false then
    (if lastSegOf img.actualUrl ≠ "" ∧ containsS html (lastSegOf img.actualUrl) = true then 8/10
     else 0)
  else 0

/-- `_validate_smart_image_implementation(html, scraped_data)` where `descs` is
`scraped_data['visual_context']['image_descriptions']`. -/
def validate_smart_image_implementation (html : String) (descs : List ImageDesc) : ℚ :=
  if descs = [] then 1
  else if priorityImages descs = [] then 1
  else
    let total : ℚ := ((priorityImages descs).length : ℚ)
    let awards : ℚ := ((priorityImages descs).map (imageAward html)).sum
    let uc : Nat := unicodeIconCount html
    let implemented : ℚ := if 0 < uc then awards + min ((uc : ℚ) * (1/10)) (1/2) else awards
    min (implemented / total) 1

/-! ## Content Fidelity Scorer (`_simple_content_validation`) -/

/-- The text inventory slice of the scraped document used by the content scorer. -/
structure TextData where
  headings : List String
  buttons : List String
  navigation : List String
deriving DecidableEq, Repr

/-- One checklist pass: for each item, if it is non-empty and its stripped form is
longer than 2 characters, one check is added, passing when the lowered item occurs
in the lowered candidate. `acc` is the running `(passed, total)` pair. -/
def tallyList (hl : String) (items : List String) (acc : Nat × Nat) : Nat × Nat :=
  items.foldl
    (fun pt it =>
      if it ≠ "" ∧ 2 < (pyStrip it).length then
        ((if containsS hl (lowerS it) = true then pt.1 + 1 else pt.1), pt.2 + 1)
      else pt)
    acc

/-- The `(passed_checks, total_checks)` pair of `_simple_content_validation`:
first 8 headings, first 8 buttons, first 8 navigation labels, then the two
structural checks (interactivity neutralized; a landmark tag present). -/
def contentTally (html : String) (t : TextData) : Nat × Nat :=
  let hl := lowerS html
  let s1 := tallyList hl (t.headings.take 8) (0, 0)
  let s2 := tallyList hl (t.buttons.take 8) s1
  let s3 := tallyList hl (t.navigation.take 8) s2
  (s3.1 +
     (if containsS html "onclick=\"return false;\"" = true then 1 else 0) +
     (if (containsS hl "<nav" || containsS hl "<header" || containsS hl "<footer" ||
          containsS hl "<main") = true then 1 else 0),
   s3.2 + 2)

/-- `_simple_content_validation`: `passed_checks / max(total_checks, 1)`. -/
def simple_content_validation (html : String) (t : TextData) : ℚ :=
  ((contentTally html t).1 : ℚ) / ((max (contentTally html t).2 1 : Nat) : ℚ)

/-! ## Artifact Normalizer (`_extract_html` / `_fix_html`)

Each Python `re.sub` is a left-to-right non-overlapping scan; each scanner below
carries a fuel argument initialised to the input length (every recursive call
consumes at least one input character, so the fuel never runs out on the
top-level wrappers). -/

/-- Split at the first `'"'`: returns the suffix after that quote, or `none`
when no quote remains (the regex `[^"]*"` then fails to match). -/
def quoteSplit : List Char → Option (List Char)
  | [] => none
  | c :: t => if c = '"' then some t else quoteSplit t

/-- Split at the first `'>'`: returns the (gt-free) part before it and the part
after it, or `none` when no `'>'` remains. -/
def gtSplit : List Char → Option (List Char × List Char)
  | [] => none
  | c :: t =>
    if c = '>' then some ([], t)
    else match gtSplit t with
      | none => none
      | some (a, b) => some (c :: a, b)

/-- The lookahead `[^>]*tok`: does `tok` occur before the first `'>'`? -/
def tokenBeforeGt (tok : List Char) : List Char → Bool
  | [] => false
  | c :: t =>
    if isPre tok (c :: t) = true then true
    else if c = '>' then false
    else tokenBeforeGt tok t

/-- Does `l` end with `suf`? (the width of a Python lookbehind) -/
def endsL (l suf : List Char) : Bool := isPre suf.reverse l.reverse

/-- `re.sub(r'href="(?!#)[^"]*"', 'href="#" onclick="return false;"', html)`. -/
def hrefStep : Nat → List Char → List Char
  | 0, l => l
  | _ + 1, [] => []
  | fuel + 1, c :: t =>
    if isPre "href=\"".data (c :: t) = true then
      match (c :: t).drop 6 with
      | [] => c :: hrefStep fuel t
      | d :: r =>
        if d = '#' then c :: hrefStep fuel t
        else match quoteSplit (d :: r) with
          | some rest => "href=\"#\" onclick=\"return false;\"".data ++ hrefStep fuel rest
          | none => c :: hrefStep fuel t
    else c :: hrefStep fuel t

/-- `re.sub(r'<button(?![^>]*onclick=)', '<button onclick="return false;"', html)`. -/
def buttonStep : Nat → List Char → List Char
  | 0, l => l
  | _ + 1, [] => []
  | fuel + 1, c :: t =>
    if isPre "<button".data (c :: t) = true then
      if tokenBeforeGt "onclick=".data ((c :: t).drop 7) = true then c :: buttonStep fuel t
      else "<button onclick=\"return false;\"".data ++ buttonStep fuel ((c :: t).drop 7)
    else c :: buttonStep fuel t

/-- `re.sub(r'<form(?![^>]*onsubmit=)', '<form onsubmit="return false;"', html)`. -/
def formStep : Nat → List Char → List Char
  | 0, l => l
  | _ + 1, [] => []
  | fuel + 1, c :: t =>
    if isPre "<form".data (c :: t) = true then
      if tokenBeforeGt "onsubmit=".data ((c :: t).drop 5) = true then c :: formStep fuel t
      else "<form onsubmit=\"return false;\"".data ++ formStep fuel ((c :: t).drop 5)
    else c :: formStep fuel t

/-- Python `str.replace(pat, rep)` (all non-overlapping occurrences, left to right;
the replacement is not rescanned). -/
def replAllStep (pat rep : List Char) : Nat → List Char → List Char
  | 0, l => l
  | _ + 1, [] => []
  | fuel + 1, c :: t =>
    if isPre pat (c :: t) = true then rep ++ replAllStep pat rep fuel ((c :: t).drop pat.length)
    else c :: replAllStep pat rep fuel t

/-- `re.sub(r'<img([^>]*?)(?<!loading=")(?<!loading=\')>', r'<img\1 loading="lazy">', html)`:
the non-greedy group cannot cross `'>'`, so the only match candidate at a
position runs to the first `'>'`; the two 9/10-character lookbehinds are checked
against the text just before that `'>'`.  (When the group is shorter than the
lookbehind the window would extend left of the match; the characters `<img`
never occur inside `loading="`/`loading='`, so checking against `<img ++ group`
alone is exact.) -/
def imgStep : Nat → List Char → List Char
  | 0, l => l
  | _ + 1, [] => []
  | fuel + 1, c :: t =>
    if isPre "<img".data (c :: t) = true then
      match gtSplit ((c :: t).drop 4) with
      | some (inner, rest) =>
        if endsL ("<img".data ++ inner) "loading=\"".data = true ∨
            endsL ("<img".data ++ inner) "loading='".data = true then
          c :: imgStep fuel t
        else "<img".data ++ inner ++ " loading=\"lazy\">".data ++ imgStep fuel rest
      | none => c :: imgStep fuel t
    else c :: imgStep fuel t

/-- The viewport meta inserted by `_fix_html`. -/
def headRepl : List Char :=
  "<head>\n    <meta name=\"viewport\" content=\"width=device-width, initial-scale=1.0\">".data

/-- `_fix_html`: disable links, buttons and forms, insert a viewport when the word
is absent, then the image lazy-loading substitution. -/
def fix_html (s : String) : String :=
  let l1 := hrefStep s.data.length s.data
  let l2 := buttonStep l1.length l1
  let l3 := formStep l2.length l2
  let l4 := if subStr "viewport".data l3 = true then l3
            else replAllStep "<head>".data headRepl l3.length l3
  ⟨imgStep l4.length l4⟩

/-- Remove every occurrence of `pat` with one optional trailing newline
(`re.sub(pat + r'\n?', '', text)` for a literal `pat`). -/
def dropPatNl (pat : List Char) : Nat → List Char → List Char
  | 0, l => l
  | _ + 1, [] => []
  | fuel + 1, c :: t =>
    if isPre pat (c :: t) = true then
      match (c :: t).drop pat.length with
      | '\n' :: r => dropPatNl pat fuel r
      | r => dropPatNl pat fuel r
    else c :: dropPatNl pat fuel t

/-- First index at which `pat` starts in `hay`. -/
def idxOf (pat : List Char) : List Char → Option Nat
  | [] => if isPre pat [] = true then some 0 else none
  | c :: t => if isPre pat (c :: t) = true then some 0 else (idxOf pat t).map (· + 1)

/-- `re.search(open + '.*?' + close, text, DOTALL)` over a pre-lowered copy
(IGNORECASE): the leftmost occurrence of `openPat`, extended to the first
occurrence of `closePat` after it; the slice is taken from the original text. -/
def searchBetween (openPat closePat low orig : List Char) : Option (List Char) :=
  match idxOf openPat low with
  | none => none
  | some i =>
    match idxOf closePat ((low.drop i).drop openPat.length) with
    | none => none
    | some j => some ((orig.drop i).take (openPat.length + j + closePat.length))

/-- `_extract_html`: strip code fences, search for a DOCTYPE-delimited document,
then an html-tag-delimited one, else fall back to the stripped raw text; the
winner is passed through `_fix_html`. -/
def extract_html (s : String) : String :=
  let t1 := dropPatNl "```html".data s.data.length s.data
  let t := dropPatNl "```".data t1.length t1
  let low := t.map Char.toLower
  match searchBetween "<!doctype html>".data "</html>".data low t with
  | some m => fix_html ⟨pyStripL m⟩
  | none =>
    match searchBetween "<html".data "</html>".data low t with
    | some m => fix_html ⟨pyStripL m⟩
    | none => fix_html ⟨pyStripL t⟩

/-! ## `_create_error_page` -/

/-- The error document up to (and excluding) the interpolated error message. -/
def errPagePre : String :=
  "<!DOCTYPE html>\n<html>\n<head>\n    <title>Cloning Error</title>\n    <meta name=\"viewport\" conte" ++
  "nt=\"width=device-width, initial-scale=1.0\">\n    <style>\n        body \x7b\n            font-fami" ++
  "ly: -apple-system, BlinkMacSystemFont, \x27Segoe UI\x27, Roboto, Helvetica, Arial, sans-serif;\n    " ++
  "        margin: 0;\n            padding: 40px;\n            background-color: #f5f5f5;\n            " ++
  "display: flex;\n            justify-content: center;\n            align-items: center;\n            " ++
  "min-height: 100vh;\n            text-align: center;\n        \x7d\n        .error-container \x7b\n  " ++
  "          background: white;\n            padding: 40px;\n            border-radius: 12px;\n        " ++
  "    box-shadow: 0 4px 20px rgba(0,0,0,0.1);\n            max-width: 500px;\n        \x7d\n        h1" ++
  " \x7b\n            color: #d32f2f;\n            font-size: 28px;\n            margin-bottom: 20px;\n" ++
  "        \x7d\n        p \x7b\n            color: #666;\n            line-height: 1.6;\n            m" ++
  "argin-bottom: 20px;\n        \x7d\n        .error-details \x7b\n            background: #f5f5f5;\n  " ++
  "          padding: 15px;\n            border-radius: 8px;\n            font-family: monospace;\n    " ++
  "        font-size: 14px;\n            color: #333;\n            text-align: left;\n            overf" ++
  "low-x: auto;\n        \x7d\n    </style>\n</head>\n<body>\n    <div class=\"error-container\">\n    " ++
  "    <h1>Website Cloning Failed</h1>\n        <p>An error occurred while attempting to clone the webs" ++
  "ite. This could be due to various factors including API limits, complex page structure, or network i" ++
  "ssues.</p>\n        <div class=\"error-details\">" ++
  ""

/-- The error document after the interpolated error message. -/
def errPageSuf : String :=
  "</div>\n        <p>Please try again or use Classic mode for more reliable results.</p>\n    </div>\n" ++
  "</body>\n</html>" ++
  ""

/-- `_create_error_page(error_message)`. -/
def create_error_page (msg : String) : String := errPagePre ++ msg ++ errPageSuf

/-! ## Refinement Orchestrator (`clone_website`)

The effectful collaborators are oracles returning `Except String`:
`generateRaw` is the initial LLM call returning the raw response text (before
`_extract_html`); `render i h` is `render_generated_html` for the iteration-`i`
call (indexed because the external renderer need not be deterministic across
calls); `compare` is `compare_base64_images(original, ·)`, and `contentVal` /
`imageVal` are the two pure scorers viewed as possibly-raising functions of the
candidate markup (they can raise in Python on malformed scraped data, and the
same function is used for the initial, per-iteration and final scoring);
`refineRaw i h v` is the `_simple_refine` LLM call; `finalRender` is the final
assessment's separate `render_generated_html` call. -/
structure Oracles where
  generateRaw : Except String String
  render : Nat → String → Except String String
  compare : String → Except String ℚ
  contentVal : String → Except String ℚ
  imageVal : String → Except String ℚ
  refineRaw : Nat → String → ℚ → Except String String
  finalRender : String → Except String String

/-- One entry of `iteration_results`. -/
structure IterRecord where
  iteration : Nat
  visual : ℚ
  content : ℚ
  image : ℚ
  combined : ℚ
deriving DecidableEq, Repr

/-- The loop's mutable state: `html_content`, `best_html`, `best_similarity`,
`iteration_results`. -/
structure LoopState where
  cur : String
  best : String
  bestSim : ℚ
  results : List IterRecord
deriving DecidableEq, Repr

/-- `(visual * 0.6) + (content * 0.3) + (image * 0.1)`. -/
def combScore (v c a : ℚ) : ℚ := v * (6/10) + c * (3/10) + a * (1/10)

/-- The rendering/scoring block at the top of an iteration's `try`: any raise in
`render_generated_html`, `compare_base64_images`, `_simple_content_validation`
or `_validate_smart_image_implementation` surfaces as `.error`. -/
def iterateScores (o : Oracles) (i : Nat) (html : String) : Except String (ℚ × ℚ × ℚ) :=
  match o.render i html with
  | .error e => .error e
  | .ok shot =>
    match o.compare shot with
    | .error e => .error e
    | .ok v =>
      match o.contentVal html with
      | .error e => .error e
      | .ok c =>
        match o.imageVal html with
        | .error e => .error e
        | .ok a => .ok (v, c, a)

/-- Best-so-far markup after an iteration with scores `(v, c, a)`:
replaced when the combined score strictly exceeds the previous best. -/
def nextBest (st : LoopState) (v c a : ℚ) : String :=
  if st.bestSim < combScore v c a then st.cur else st.best

/-- Best-so-far combined score after an iteration with scores `(v, c, a)`. -/
def nextSim (st : LoopState) (v c a : ℚ) : ℚ :=
  if st.bestSim < combScore v c a then combScore v c a else st.bestSim

/-- The `for iteration in range(1, max_iterations + 1)` loop of `clone_website`,
consuming the list of remaining iteration indices.  Per iteration: score the
current candidate (a raise breaks the loop, falling back to best-so-far), update
best-so-far on a strictly better combined score, record the iteration, stop on
the early-accept test, stop-and-revert on the content-regression test, and
otherwise refine unless this was the last iteration (a raise in the refine call
likewise breaks to best-so-far). -/
def clone_loop (o : Oracles) (maxIter : Nat) (qt initC : ℚ) :
    List Nat → LoopState → LoopState
  | [], st => st
  | i :: rest, st =>
    match iterateScores o i st.cur with
    | .error _ => { st with cur := st.best }
    | .ok (v, c, a) =>
      let st1 : LoopState :=
        { cur := st.cur, best := nextBest st v c a, bestSim := nextSim st v c a,
          results := st.results ++ [⟨i, v, c, a, combScore v c a⟩] }
      if qt ≤ v ∧ 7/10 < a then st1
      else if c < initC * (8/10) then { st1 with cur := st1.best }
      else if i < maxIter then
        match o.refineRaw i st1.cur v with
        | .error _ => { st1 with cur := st1.best }
        | .ok raw => clone_loop o maxIter qt initC rest { st1 with cur := extract_html raw }
      else clone_loop o maxIter qt initC rest st1

/-- The final-assessment `try` block: re-render and re-score `final_html`. -/
def finalScores (o : Oracles) (finalHtml : String) : Except String (ℚ × ℚ × ℚ) :=
  match o.finalRender finalHtml with
  | .error e => .error e
  | .ok shot =>
    match o.compare shot with
    | .error e => .error e
    | .ok v =>
      match o.contentVal finalHtml with
      | .error e => .error e
      | .ok c =>
        match o.imageVal finalHtml with
        | .error e => .error e
        | .ok a => .ok (v, c, a)

/-- The success payload: `(html, visual_similarity, content_completeness,
smart_image_score, iterations)`. -/
def clone_website_e (o : Oracles) (maxIter : Nat) (qt : ℚ) (shot : String) :
    Except String (String × ℚ × ℚ × ℚ × Nat) :=
  if shot = "" then .error "No screenshot data available"
  else
    match o.generateRaw with
    | .error e => .error e
    | .ok raw =>
      let html0 := extract_html raw
      match o.contentVal html0 with
      | .error e => .error e
      | .ok initC =>
        match o.imageVal html0 with
        | .error e => .error e
        | .ok initI =>
          let st := clone_loop o maxIter qt initC (List.range' 1 maxIter) ⟨html0, html0, 0, []⟩
          match finalScores o st.best with
          | .ok (fv, fc, fi) => .ok (st.best, fv, fc, fi, st.results.length)
          | .error _ => .ok (st.best, st.bestSim, initC, initI, st.results.length)

/-- The result dictionary of `clone_website`: either the success shape
`{success: True, html, visual_similarity, content_completeness,
smart_image_score, iterations, …}` or the failure shape
`{success: False, error, html: _create_error_page(error)}`. -/
inductive CloneResult where
  | ok (html : String) (visual content image : ℚ) (iterations : Nat)
  | failed (err : String) (html : String)
deriving DecidableEq, Repr

/-- The `success` flag of the result. -/
def CloneResult.success : CloneResult → Bool
  | .ok .. => true
  | .failed .. => false

/-- The `html` field of the result. -/
def CloneResult.htmlOut : CloneResult → String
  | .ok h _ _ _ _ => h
  | .failed _ h => h

/-- `clone_website(scraped_data)`: the whole body runs under one outer `try`;
any uncaught raise (including the missing-screenshot raise and raises from the
initial scoring) is converted into the failure dictionary carrying
`_create_error_page`. -/
def clone_website (o : Oracles) (maxIter : Nat) (qt : ℚ) (shot : String) : CloneResult :=
  match clone_website_e o maxIter qt shot with
  | .ok (h, v, c, i, n) => .ok h v c i n
  | .error e => .failed e (create_error_page e)

/-! ## Supporting lemmas: content scorer -/

theorem tallyList_le (hl : String) (items : List String) (acc : Nat × Nat)
    (h : acc.1 ≤ acc.2) : (tallyList hl items acc).1 ≤ (tallyList hl items acc).2 := by
  induction items generalizing acc with
  | nil => simpa [tallyList] using h
  | cons it rest ih =>
    show (tallyList hl rest _).1 ≤ (tallyList hl rest _).2
    apply ih
    dsimp only
    split
    · split <;> omega
    · exact h

theorem contentTally_total_ge (html : String) (t : TextData) :
    2 ≤ (contentTally html t).2 := by
  simp only [contentTally]
  omega

theorem contentTally_passed_le (html : String) (t : TextData) :
    (contentTally html t).1 ≤ (contentTally html t).2 := by
  simp only [contentTally]
  have h1 : (tallyList (lowerS html) (t.headings.take 8) (0, 0)).1 ≤
      (tallyList (lowerS html) (t.headings.take 8) (0, 0)).2 :=
    tallyList_le _ _ _ (by omega)
  have h2 := tallyList_le (lowerS html) (t.buttons.take 8) _ h1
  have h3 := tallyList_le (lowerS html) (t.navigation.take 8) _ h2
  split <;> split <;> omega

/-- C8: the content scorer is always defined: the two structural checks make the
total check count at least 2 (so `max(total, 1) = total` and no division by zero
occurs), and the returned score is exactly passed-checks over total-checks,
which lies in [0, 1]. -/
theorem content_scorer_total_and_bounded (html : String) (t : TextData) :
    2 ≤ (contentTally html t).2 ∧
    simple_content_validation html t =
      ((contentTally html t).1 : ℚ) / ((contentTally html t).2 : ℚ) ∧
    0 ≤ simple_content_validation html t ∧ simple_content_validation html t ≤ 1 := by
  have htot := contentTally_total_ge html t
  have hle := contentTally_passed_le html t
  have hmax : max (contentTally html t).2 1 = (contentTally html t).2 :=
    Nat.max_eq_left (by omega)
  have heq : simple_content_validation html t =
      ((contentTally html t).1 : ℚ) / ((contentTally html t).2 : ℚ) := by
    rw [simple_content_validation, hmax]
  refine ⟨htot, heq, ?_, ?_⟩
  · rw [heq]
    exact div_nonneg (Nat.cast_nonneg _) (Nat.cast_nonneg _)
  · rw [heq]
    rw [div_le_one (by exact_mod_cast Nat.lt_of_lt_of_le (by omega) htot)]
    exact_mod_cast hle

/-- C5 (code behaviour at the failing input): `_fix_html` appends a fresh
` loading="lazy"` to an `img` tag on every application — the misplaced
lookbehind inspects only the nine characters immediately before `>` and never
sees an existing `loading` attribute — so the normalization is not idempotent:
applying it twice to `<img src="x">` differs from applying it once. -/
theorem fix_html_img_not_idempotent :
    fix_html "<img src=\"x\">" = "<img src=\"x\" loading=\"lazy\">" ∧
    fix_html (fix_html "<img src=\"x\">") =
      "<img src=\"x\" loading=\"lazy\" loading=\"lazy\">" ∧
    fix_html (fix_html "<img src=\"x\">") ≠ fix_html "<img src=\"x\">" := by
  decide

/-! ## Supporting lemmas: classifier -/

theorem insertAreaDesc_perm (x : ImgData) (l : List ImgData) :
    (insertAreaDesc x l).Perm (x :: l) := by
  induction l with
  | nil => exact List.Perm.refl _
  | cons y ys ih =>
    unfold insertAreaDesc
    split
    · exact List.Perm.refl _
    · exact (ih.cons y).trans (List.Perm.swap x y ys)

theorem sortAreaDesc_perm (l : List ImgData) : (sortAreaDesc l).Perm l := by
  induction l with
  | nil => exact List.Perm.refl _
  | cons x xs ih => exact (insertAreaDesc_perm x (sortAreaDesc xs)).trans (ih.cons x)

theorem insertAreaDesc_pairwise (x : ImgData) (l : List ImgData)
    (h : List.Pairwise (fun a b : ImgData => b.area ≤ a.area) l) :
    List.Pairwise (fun a b : ImgData => b.area ≤ a.area) (insertAreaDesc x l) := by
  induction l with
  | nil => simp [insertAreaDesc]
  | cons y ys ih =>
    rcases List.pairwise_cons.1 h with ⟨hy, hys⟩
    unfold insertAreaDesc
    split
    case isTrue hc =>
      refine List.pairwise_cons.2 ⟨?_, h⟩
      intro z hz
      rcases List.mem_cons.1 hz with rfl | hz'
      · exact hc
      · exact le_trans (hy z hz') hc
    case isFalse hc =>
      refine List.pairwise_cons.2 ⟨?_, ih hys⟩
      intro z hz
      have hz' : z ∈ x :: ys := (insertAreaDesc_perm x ys).mem_iff.1 hz
      rcases List.mem_cons.1 hz' with rfl | hz''
      · exact le_of_not_le hc
      · exact hy z hz''

theorem sortAreaDesc_pairwise (l : List ImgData) :
    List.Pairwise (fun a b : ImgData => b.area ≤ a.area) (sortAreaDesc l) := by
  induction l with
  | nil => simp [sortAreaDesc]
  | cons x xs ih => exact insertAreaDesc_pairwise x (sortAreaDesc xs) ih

theorem suggestedTypeOf_cases (img : ImageDesc) :
    suggestedTypeOf img = "icon" ∨ suggestedTypeOf img = "logo" ∨
      suggestedTypeOf img = "content" := by
  unfold suggestedTypeOf
  split_ifs <;> simp


theorem count_filter_neg {p : ImgData → Bool} {a : ImgData} {l : List ImgData}
    (h : p a = false) : List.count a (l.filter p) = 0 :=
  List.count_eq_zero.2 (fun hmem => by
    have hpa := (List.mem_filter.1 hmem).2
    rw [h] at hpa
    exact Bool.false_ne_true hpa)

/-- A one-pass partition into the three tier lists is a permutation of the input
(every element lands in exactly one tier, counted with multiplicity). -/
theorem filter_three_perm (l : List ImgData)
    (h : ∀ d ∈ l, d.suggestedType = "icon" ∨ d.suggestedType = "logo" ∨
        d.suggestedType = "content") :
    ((l.filter (fun d => d.suggestedType == "logo")) ++
     (l.filter (fun d => d.suggestedType == "content")) ++
     (l.filter (fun d => d.suggestedType == "icon"))).Perm l := by
  refine List.perm_iff_count.2 (fun x => ?_)
  simp only [List.count_append]
  by_cases hx : x ∈ l
  · rcases h x hx with hx1 | hx1 | hx1
    · rw [count_filter_neg (by simp [hx1]), count_filter_neg (by simp [hx1]),
        List.count_filter (by simp [hx1])]
      omega
    · rw [List.count_filter (by simp [hx1]), count_filter_neg (by simp [hx1]),
        count_filter_neg (by simp [hx1])]
      omega
    · rw [count_filter_neg (by simp [hx1]), List.count_filter (by simp [hx1]),
        count_filter_neg (by simp [hx1])]
      omega
  · have h0 : l.count x = 0 := List.count_eq_zero.2 hx
    have h1 : ∀ p : ImgData → Bool, List.count x (l.filter p) = 0 :=
      fun p => List.count_eq_zero.2 (fun hmem => hx (List.mem_filter.1 hmem).1)
    rw [h0, h1, h1, h1]


/-- C6 (amended): the classifier is total and deterministic — mapping each output
record back to its underlying descriptor, the three tiers together are a
permutation of the input list, so every input image appears in exactly one tier
(with multiplicity), and the classification of each image is a pure function of
that image; every image with width ≤ 32 and height ≤ 32 lands in the icon tier;
and the logo and content tiers are sorted by descending area.  (The icon tier —
contrary to the claim — is returned in input order, unsorted; see the
counterexample.) -/
theorem classifier_total_and_sorted (l : List ImageDesc) :
    (((filter_meaningful_images l).logos ++ (filter_meaningful_images l).meaningful_images ++
        (filter_meaningful_images l).tiny_icons).map ImgData.base).Perm l ∧
    (∀ img ∈ l, img.width ≤ 32 → img.height ≤ 32 →
        classifyOne img ∈ (filter_meaningful_images l).tiny_icons) ∧
    List.Pairwise (fun a b : ImgData => b.area ≤ a.area)
      (filter_meaningful_images l).logos ∧
    List.Pairwise (fun a b : ImgData => b.area ≤ a.area)
      (filter_meaningful_images l).meaningful_images := by
  refine ⟨?_, ?_, ?_, ?_⟩
  · have htags : ∀ d ∈ l.map classifyOne, d.suggestedType = "icon" ∨
        d.suggestedType = "logo" ∨ d.suggestedType = "content" := by
      intro d hd
      rcases List.mem_map.1 hd with ⟨img, _, rfl⟩
      exact suggestedTypeOf_cases img
    have hperm : ((filter_meaningful_images l).logos ++
        (filter_meaningful_images l).meaningful_images ++
        (filter_meaningful_images l).tiny_icons).Perm (l.map classifyOne) := by
      simp only [filter_meaningful_images]
      exact (((sortAreaDesc_perm _).append (sortAreaDesc_perm _)).append
        (List.Perm.refl _)).trans (filter_three_perm (l.map classifyOne) htags)
    have hmapped := hperm.map ImgData.base
    have h2 : (l.map classifyOne).map ImgData.base = l := by
      rw [List.map_map]
      exact List.map_id l
    rw [h2] at hmapped
    exact hmapped
  · intro img hmem hw hh
    have htype : (classifyOne img).suggestedType = "icon" := by
      simp only [classifyOne]
      unfold suggestedTypeOf
      rw [if_pos ⟨hw, hh⟩]
    simp only [filter_meaningful_images]
    exact List.mem_filter.2 ⟨List.mem_map_of_mem classifyOne hmem, by simp [htype]⟩
  · exact sortAreaDesc_pairwise _
  · exact sortAreaDesc_pairwise _

/-- C6 counterexample: two 1×1 and 2×2 images are both icons; the returned icon
tier is `[area 1, area 4]` — input order, not descending-area order — so the
claim that each of the three tier lists is sorted by descending area is false. -/
theorem classifier_icon_tier_unsorted :
    ((filter_meaningful_images [⟨1, 1, "a", "", "", none⟩, ⟨2, 2, "b", "", "", none⟩]).tiny_icons.map
        ImgData.area) = [1, 4] ∧
    ¬ List.Pairwise (fun a b : ImgData => b.area ≤ a.area)
        (filter_meaningful_images
          [⟨1, 1, "a", "", "", none⟩, ⟨2, 2, "b", "", "", none⟩]).tiny_icons := by
  refine ⟨by decide, fun h => ?_⟩
  have h41 :
      (4 : Int) ≤ 1 := by
    have hmem := (List.pairwise_cons.1 (by
      have e :
          (filter_meaningful_images
            [⟨1, 1, "a", "", "", none⟩, ⟨2, 2, "b", "", "", none⟩]).tiny_icons =
          [classifyOne ⟨1, 1, "a", "", "", none⟩, classifyOne ⟨2, 2, "b", "", "", none⟩] := by
        decide
      rw [e] at h
      exact h)).1
    simpa [classifyOne] using hmem (classifyOne ⟨2, 2, "b", "", "", none⟩) (by decide)
  omega

/-- C6 witness: the classifier contract theorem applied to a concrete two-image
input (one 10×10 icon, one 300×200 content image). -/
theorem classifier_total_and_sorted_w :
    (((filter_meaningful_images [⟨10, 10, "i.png", "", "", none⟩, ⟨300, 200, "c.png", "", "", none⟩]).logos ++
        (filter_meaningful_images [⟨10, 10, "i.png", "", "", none⟩, ⟨300, 200, "c.png", "", "", none⟩]).meaningful_images ++
        (filter_meaningful_images [⟨10, 10, "i.png", "", "", none⟩, ⟨300, 200, "c.png", "", "", none⟩]).tiny_icons).map
          ImgData.base).Perm
      [⟨10, 10, "i.png", "", "", none⟩, ⟨300, 200, "c.png", "", "", none⟩] ∧
    classifyOne ⟨10, 10, "i.png", "", "", none⟩ ∈
      (filter_meaningful_images
        [⟨10, 10, "i.png", "", "", none⟩, ⟨300, 200, "c.png", "", "", none⟩]).tiny_icons := by
  exact ⟨(classifier_total_and_sorted _).1,
    (classifier_total_and_sorted _).2.1 _ (by decide) (by decide) (by decide)⟩

/-! ## Supporting lemmas: asset scorer -/

theorem ne_nil_append {α : Type} {l₁ l₂ : List α} (h : l₁ ≠ []) : l₁ ++ l₂ ≠ [] := by
  cases l₁ with
  | nil => exact absurd rfl h
  | cons a t => simp

theorem placeholderUrl_ne_empty (w h : Int) : placeholderUrl w h ≠ "" := by
  intro he
  have hdata : (placeholderUrl w h).data = [] := by rw [he]
  rw [placeholderUrl] at hdata
  simp only [str_data_append, List.append_assoc] at hdata
  exact ne_nil_append (by decide) hdata

theorem actualUrlOf_ne_empty (d : ImageDesc) : actualUrlOf d ≠ "" := by
  unfold actualUrlOf
  split_ifs with hc
  · exact hc.1
  · exact placeholderUrl_ne_empty d.width d.height

theorem mem_priority_exists {descs : List ImageDesc} {img : ImgData}
    (h : img ∈ priorityImages descs) : ∃ d, d ∈ descs ∧ img = classifyOne d := by
  simp only [priorityImages, filter_meaningful_images] at h
  rcases List.mem_append.1 h with h1 | h1 <;>
  · have hmem := (sortAreaDesc_perm _).mem_iff.1 h1
    have hm := (List.mem_filter.1 hmem).1
    rcases List.mem_map.1 hm with ⟨d, hd, rfl⟩
    exact ⟨d, hd, rfl⟩

theorem priority_actualUrl_ne_empty {descs : List ImageDesc} {img : ImgData}
    (h : img ∈ priorityImages descs) : img.actualUrl ≠ "" := by
  rcases mem_priority_exists h with ⟨d, _, rfl⟩
  exact actualUrlOf_ne_empty d

theorem imageAward_nonneg (html : String) (img : ImgData) : 0 ≤ imageAward html img := by
  unfold imageAward
  split_ifs <;> norm_num

theorem imageAward_eq_one (html : String) (img : ImgData) (hne : img.actualUrl ≠ "")
    (hc : containsS html img.actualUrl = true) : imageAward html img = 1 := by
  unfold imageAward
  rw [if_pos ⟨hne, hc⟩]

theorem imageAward_eq_zero (html : String) (img : ImgData)
    (h1 : containsS html img.actualUrl = false)
    (h2 : containsS html img.base.src = false)
    (h3 : containsS html (lastSegOf img.actualUrl) = false) :
    imageAward html img = 0 := by
  unfold imageAward
  rw [if_neg (fun hh => by rw [h1] at hh; exact Bool.false_ne_true hh.2),
    if_neg (fun hh => by rw [h2] at hh; exact Bool.false_ne_true hh.2)]
  split_ifs with hc hd
  · rw [h3] at hd
    exact absurd hd.2 Bool.false_ne_true
  · rfl
  · rfl

theorem sum_awards_nonneg (html : String) (l : List ImgData) :
    0 ≤ (l.map (imageAward html)).sum := by
  apply List.sum_nonneg
  intro x hx
  rcases List.mem_map.1 hx with ⟨i, _, rfl⟩
  exact imageAward_nonneg html i

theorem sum_map_eq_length {f : ImgData → ℚ} {l : List ImgData} (h : ∀ x ∈ l, f x = 1) :
    (l.map f).sum = (l.length : ℚ) := by
  induction l with
  | nil => simp
  | cons a t ih =>
    simp only [List.map_cons, List.sum_cons, List.length_cons,
      h a (List.mem_cons_self a t), ih (fun x hx => h x (List.mem_cons_of_mem a hx))]
    push_cast
    ring

theorem sum_map_eq_zero {f : ImgData → ℚ} {l : List ImgData} (h : ∀ x ∈ l, f x = 0) :
    (l.map f).sum = 0 := by
  apply List.sum_eq_zero
  intro x hx
  rcases List.mem_map.1 hx with ⟨i, hi, rfl⟩
  exact h i hi

/-- C7: the asset scorer's boundary postconditions: no images in the scraped
document, or an empty classified priority set, give a score of exactly 1.0;
a candidate containing every priority image's resolved URL verbatim scores
exactly 1.0; a candidate with no priority-URL match — verbatim (resolved or
original) or trailing path segment — and no symbolic icon glyphs scores
exactly 0.0; and every score lies in [0, 1]. -/
theorem asset_scorer_boundary (html : String) (descs : List ImageDesc) :
    (descs = [] → validate_smart_image_implementation html descs = 1) ∧
    (priorityImages descs = [] → validate_smart_image_implementation html descs = 1) ∧
    ((∀ img ∈ priorityImages descs, containsS html img.actualUrl = true) →
      validate_smart_image_implementation html descs = 1) ∧
    (priorityImages descs ≠ [] →
      (∀ img ∈ priorityImages descs, containsS html img.actualUrl = false ∧
        containsS html img.base.src = false ∧
        containsS html (lastSegOf img.actualUrl) = false) →
      unicodeIconCount html = 0 →
      validate_smart_image_implementation html descs = 0) ∧
    0 ≤ validate_smart_image_implementation html descs ∧
    validate_smart_image_implementation html descs ≤ 1 := by
  by_cases hd : descs = []
  · refine ⟨fun _ => ?_, fun _ => ?_, fun _ => ?_, fun hne _ _ => ?_, ?_, ?_⟩ <;>
      simp [validate_smart_image_implementation, hd]
    · exact absurd (by simp [priorityImages, filter_meaningful_images, hd, sortAreaDesc]) hne
  by_cases hp : priorityImages descs = []
  · refine ⟨fun h => absurd h hd, fun _ => ?_, fun _ => ?_, fun hne _ _ => absurd hp hne,
      ?_, ?_⟩ <;>
      simp [validate_smart_image_implementation, hd, hp]
  -- main branch: priority images present
  have hlen : 0 < (priorityImages descs).length := List.length_pos.2 hp
  have htotal : (0 : ℚ) < ((priorityImages descs).length : ℚ) := by exact_mod_cast hlen
  have hbonus : ∀ uc : Nat, (0 : ℚ) ≤ min ((uc : ℚ) * (1/10)) (1/2) :=
    fun uc => le_min (by positivity) (by norm_num)
  have hmain : validate_smart_image_implementation html descs =
      min ((if 0 < unicodeIconCount html then
              ((priorityImages descs).map (imageAward html)).sum +
                min ((unicodeIconCount html : ℚ) * (1/10)) (1/2)
            else ((priorityImages descs).map (imageAward html)).sum) /
          ((priorityImages descs).length : ℚ)) 1 := by
    simp only [validate_smart_image_implementation, if_neg hd, if_neg hp]
  refine ⟨fun h => absurd h hd, fun h => absurd h hp, fun hall => ?_, fun _ hzero huc => ?_,
    ?_, ?_⟩
  · -- everything embedded verbatim: score is exactly 1
    have hawards : ((priorityImages descs).map (imageAward html)).sum =
        ((priorityImages descs).length : ℚ) := by
      apply sum_map_eq_length
      intro img hmem
      exact imageAward_eq_one html img (priority_actualUrl_ne_empty hmem) (hall img hmem)
    rw [hmain]
    have himpl : ((priorityImages descs).length : ℚ) ≤
        (if 0 < unicodeIconCount html then
          ((priorityImages descs).map (imageAward html)).sum +
            min ((unicodeIconCount html : ℚ) * (1/10)) (1/2)
        else ((priorityImages descs).map (imageAward html)).sum) := by
      split_ifs
      · rw [hawards]
        have := hbonus (unicodeIconCount html)
        linarith
      · rw [hawards]
    exact min_eq_right ((one_le_div htotal).2 himpl)
  · -- nothing matched and no glyphs: score is exactly 0
    have hawards : ((priorityImages descs).map (imageAward html)).sum = 0 := by
      apply sum_map_eq_zero
      intro img hmem
      exact imageAward_eq_zero html img (hzero img hmem).1 (hzero img hmem).2.1
        (hzero img hmem).2.2
    rw [hmain, huc]
    simp [hawards]
  · rw [hmain]
    refine le_min (div_nonneg ?_ (le_of_lt htotal)) (by norm_num)
    split_ifs
    · exact add_nonneg (sum_awards_nonneg html _) (hbonus _)
    · exact sum_awards_nonneg html _
  · rw [hmain]
    exact min_le_right _ _

/-- C7 witness: the boundary theorem applied to concrete inputs — a single
300×200 content image whose URL appears verbatim in the candidate (score 1),
and the same image against a candidate containing nothing relevant (score 0). -/
theorem asset_scorer_boundary_w :
    validate_smart_image_implementation "see https://ex.com/hero.jpg here"
      [⟨300, 200, "https://ex.com/hero.jpg", "", "", none⟩] = 1 ∧
    validate_smart_image_implementation "zzz"
      [⟨300, 200, "https://ex.com/hero.jpg", "", "", none⟩] = 0 := by
  exact ⟨(asset_scorer_boundary _ _).2.2.1 (by decide),
    (asset_scorer_boundary _ _).2.2.2.1 (by decide) (by decide) (by decide)⟩

/-! ## Orchestrator theorems -/

/-- C2: early accept — whenever the loop reaches an iteration `i` whose scoring
succeeds with a visual score at or above the quality threshold and an asset
score strictly above 0.7, the loop stops at `i`: exactly one record is appended
and the remaining iteration budget `rest` (hence the configured maximum) is
never consumed. -/
theorem early_accept_stops (o : Oracles) (maxIter : Nat) (qt initC : ℚ) (i : Nat)
    (rest : List Nat) (st : LoopState) (v c a : ℚ)
    (hsc : iterateScores o i st.cur = .ok (v, c, a)) (hv : qt ≤ v) (ha : 7/10 < a) :
    clone_loop o maxIter qt initC (i :: rest) st =
      { cur := st.cur, best := nextBest st v c a, bestSim := nextSim st v c a,
        results := st.results ++ [⟨i, v, c, a, combScore v c a⟩] } := by
  unfold clone_loop
  rw [hsc]
  simp only [if_pos (And.intro hv ha)]

/-- C2 witness: the early-accept theorem at a concrete state — iteration 1 scores
visual 0.9 and asset 0.8, both above the thresholds, and the loop stops after
iteration 1 although four further iterations were budgeted. -/
theorem early_accept_stops_w :
    clone_loop
      { generateRaw := .ok "A", render := fun _ h => .ok h, compare := fun _ => .ok (9/10),
        contentVal := fun _ => .ok 1, imageVal := fun _ => .ok (8/10),
        refineRaw := fun _ _ _ => .ok "B", finalRender := fun h => .ok h }
      5 (85/100) 1 (1 :: [2, 3, 4, 5]) ⟨"A", "A", 0, []⟩ =
      { cur := "A",
        best := nextBest ⟨"A", "A", 0, []⟩ (9/10) 1 (8/10),
        bestSim := nextSim ⟨"A", "A", 0, []⟩ (9/10) 1 (8/10),
        results := [⟨1, 9/10, 1, 8/10, combScore (9/10) 1 (8/10)⟩] } :=
  early_accept_stops _ 5 (85/100) 1 1 [2, 3, 4, 5] ⟨"A", "A", 0, []⟩ (9/10) 1 (8/10)
    rfl (by norm_num) (by norm_num)

/-- C1 (amended): when the loop reaches an iteration `i` whose scoring succeeds,
the early-accept test fails, and the content score has regressed below 0.8 times
the iteration-0 content score, the loop stops at `i` and both the working copy
and the returned best-so-far equal `nextBest` — which is iteration `i`'s own
markup exactly when its combined score strictly exceeds the previous best
combined score, and an earlier candidate's markup otherwise.  (The claim's
stronger reading — that iteration `i`'s markup is never returned — is refuted by
the counterexample.) -/
theorem regression_guard_stops (o : Oracles) (maxIter : Nat) (qt initC : ℚ) (i : Nat)
    (rest : List Nat) (st : LoopState) (v c a : ℚ)
    (hsc : iterateScores o i st.cur = .ok (v, c, a))
    (hacc : ¬ (qt ≤ v ∧ 7/10 < a))
    (hreg : c < initC * (8/10)) :
    clone_loop o maxIter qt initC (i :: rest) st =
      { cur := nextBest st v c a, best := nextBest st v c a, bestSim := nextSim st v c a,
        results := st.results ++ [⟨i, v, c, a, combScore v c a⟩] } := by
  unfold clone_loop
  rw [hsc]
  simp only [if_neg hacc, if_pos hreg]

/-- An oracle assignment on which content regresses at iteration 2 while the
combined score improves: candidate A scores visual 0.1, content 1, asset 0;
the refined candidate B scores visual 0.9, content 0.5, asset 0. -/
def c1Oracles : Oracles :=
  { generateRaw := .ok "A"
    render := fun _ h => .ok h
    compare := fun s => .ok (if s = "A" then 1/10 else 9/10)
    contentVal := fun h => .ok (if h = "A" then 1 else 1/2)
    imageVal := fun _ => .ok 0
    refineRaw := fun _ _ _ => .ok "B"
    finalRender := fun h => .ok h }

/-- C1 counterexample: a run in which iteration 2's content score (1/2) falls
below 0.8 times iteration 0's (1), the loop stops at iteration 2 — yet the
returned markup is "B", iteration 2's own candidate (the refinement of "A"),
because its combined score 0.69 beat iteration 1's 0.36 and the best-so-far
pointer was updated before the regression check.  The claim says the returned
markup is never iteration 2's. -/
theorem regression_guard_counterexample :
    clone_website c1Oracles 3 (85/100) "shot" = .ok "B" (9/10) (1/2) 0 2 ∧
    (clone_loop c1Oracles 3 (85/100) 1 (List.range' 1 3) ⟨"A", "A", 0, []⟩).results =
      [⟨1, 1/10, 1, 0, 36/100⟩, ⟨2, 9/10, 1/2, 0, 69/100⟩] ∧
    extract_html "B" = "B" ∧ (1/2 : ℚ) < (8/10) * 1 ∧ "B" ≠ "A" := by
  refine ⟨by with_unfolding_all decide, by with_unfolding_all decide, by decide,
    by norm_num, by decide⟩

/-- C1 witness: the amended regression-guard theorem applied at iteration 2 of
the counterexample run, where iteration 2's combined score (0.69) strictly
exceeds the previous best (0.36), so `nextBest` is iteration 2's own markup. -/
theorem regression_guard_stops_w :
    clone_loop c1Oracles 3 (85/100) 1 (2 :: [3]) ⟨"B", "A", 36/100, [⟨1, 1/10, 1, 0, 36/100⟩]⟩ =
      { cur := nextBest ⟨"B", "A", 36/100, [⟨1, 1/10, 1, 0, 36/100⟩]⟩ (9/10) (1/2) 0,
        best := nextBest ⟨"B", "A", 36/100, [⟨1, 1/10, 1, 0, 36/100⟩]⟩ (9/10) (1/2) 0,
        bestSim := nextSim ⟨"B", "A", 36/100, [⟨1, 1/10, 1, 0, 36/100⟩]⟩ (9/10) (1/2) 0,
        results := [⟨1, 1/10, 1, 0, 36/100⟩] ++ [⟨2, 9/10, 1/2, 0, combScore (9/10) (1/2) 0⟩] } :=
  regression_guard_stops c1Oracles 3 (85/100) 1 2 [3]
    ⟨"B", "A", 36/100, [⟨1, 1/10, 1, 0, 36/100⟩]⟩ (9/10) (1/2) 0
    rfl (by norm_num) (by norm_num)

/-- C4 (amended): a scorer raise inside the per-iteration `try` is contained —
the loop breaks, falling back to best-so-far, no zero score is substituted
(no record is appended) and the session continues — but a scorer raise during
the initial validation, before the loop, escapes to the outer handler and turns
the whole session into a failure result. -/
theorem scoring_failure_containment :
    (∀ (o : Oracles) (maxIter : Nat) (qt initC : ℚ) (i : Nat) (rest : List Nat)
        (st : LoopState) (e : String),
      iterateScores o i st.cur = .error e →
      clone_loop o maxIter qt initC (i :: rest) st = { st with cur := st.best }) ∧
    (∀ (o : Oracles) (maxIter : Nat) (qt : ℚ) (shot raw e : String),
      shot ≠ "" → o.generateRaw = .ok raw →
      o.contentVal (extract_html raw) = .error e →
      clone_website o maxIter qt shot = .failed e (create_error_page e)) := by
  constructor
  · intro o maxIter qt initC i rest st e hsc
    unfold clone_loop
    rw [hsc]
  · intro o maxIter qt shot raw e hshot hgen hcv
    unfold clone_website clone_website_e
    rw [if_neg hshot, hgen]
    simp only [hcv]

/-- Oracles whose content scorer always raises (initial validation included). -/
def c4Oracles : Oracles :=
  { generateRaw := .ok "A"
    render := fun _ h => .ok h
    compare := fun _ => .ok 0
    contentVal := fun _ => .error "content scorer crashed"
    imageVal := fun _ => .ok 1
    refineRaw := fun _ h _ => .ok h
    finalRender := fun h => .ok h }

/-- Oracles whose renderer raises inside the loop. -/
def c4aOracles : Oracles :=
  { generateRaw := .ok "A"
    render := fun _ _ => .error "render crashed"
    compare := fun _ => .ok 0
    contentVal := fun _ => .ok 1
    imageVal := fun _ => .ok 1
    refineRaw := fun _ h _ => .ok h
    finalRender := fun h => .ok h }

/-- C4 counterexample: with a content scorer that raises (as the real one does on
malformed scraped data), the raise happens at the initial validation — outside
any inner `try` — so it propagates to the outer handler and the session returns
`success = false` with the error page.  The claim says a scoring failure is
treated as a zero score and never surfaces as a fatal error. -/
theorem scoring_failure_fatal_counterexample :
    (clone_website c4Oracles 3 (85/100) "shot").success = false ∧
    clone_website c4Oracles 3 (85/100) "shot" =
      .failed "content scorer crashed" (create_error_page "content scorer crashed") := by
  exact ⟨rfl, rfl⟩

/-- C4 witness: the containment theorem applied concretely — a renderer raise at
iteration 2 breaks the loop, restoring best-so-far and appending no record, and
the crashing content scorer turns the whole session into the failure result. -/
theorem scoring_failure_containment_w :
    clone_loop c4aOracles 3 (85/100) 1 (2 :: [3]) ⟨"H", "B", 1/4, []⟩ =
      { cur := "B", best := "B", bestSim := 1/4, results := [] } ∧
    clone_website c4Oracles 3 (85/100) "shot" =
      .failed "content scorer crashed" (create_error_page "content scorer crashed") := by
  constructor
  · exact scoring_failure_containment.1 c4aOracles 3 (85/100) 1 2 [3]
      ⟨"H", "B", 1/4, []⟩ "render crashed" rfl
  · exact scoring_failure_containment.2 c4Oracles 3 (85/100) "shot" "A"
      "content scorer crashed" (by decide) rfl rfl

/-! ## Error-page and fatal-path lemmas -/

theorem endsL_append {l suf : List Char} (m : List Char) (h : endsL l suf = true) :
    endsL (m ++ l) suf = true := by
  unfold endsL at h ⊢
  rw [List.reverse_append]
  exact isPre_append m.reverse h

theorem errPage_data (e : String) :
    (create_error_page e).data = errPagePre.data ++ (e.data ++ errPageSuf.data) := by
  simp [create_error_page, str_data_append]

/-- C3 (amended): on the fatal-input path and on every internal exception path
the session returns the failure shape, whose `html` field is the synthesized
error document — non-empty, beginning with the document-type declaration and
ending with the closing html tag — and `success` is false; the missing-screenshot
input produces exactly the failure result for "No screenshot data available".
(The claim's extension to every input — a non-empty document on the success
path too — is refuted by the counterexample, where the generator's empty output
flows through normalization unchanged and is returned with `success = true`.) -/
theorem fatal_paths_always_render :
    (∀ e : String, create_error_page e ≠ "" ∧
      isPre "<!DOCTYPE html>".data (create_error_page e).data = true ∧
      endsL (create_error_page e).data "</html>".data = true) ∧
    (∀ (o : Oracles) (maxIter : Nat) (qt : ℚ),
      clone_website o maxIter qt "" =
        .failed "No screenshot data available"
          (create_error_page "No screenshot data available")) ∧
    (∀ (o : Oracles) (maxIter : Nat) (qt : ℚ) (shot e h : String),
      clone_website o maxIter qt shot = .failed e h → h = create_error_page e) := by
  refine ⟨fun e => ⟨?_, ?_, ?_⟩, fun o maxIter qt => rfl, fun o maxIter qt shot e h heq => ?_⟩
  · intro he
    have hd : (create_error_page e).data = [] := by rw [he]
    rw [errPage_data e] at hd
    exact ne_nil_append (by decide) hd
  · rw [errPage_data e]
    exact isPre_append _ (by decide)
  · rw [errPage_data e]
    have hsuf : endsL errPageSuf.data "</html>".data = true := by decide
    exact endsL_append _ (endsL_append _ hsuf)
  · unfold clone_website at heq
    revert heq
    cases clone_website_e o maxIter qt shot with
    | ok r => intro heq; cases heq
    | error e' =>
      intro heq
      cases heq
      rfl

/-- Oracles in which the generator returns an empty response and the two scorers
are the real (embedded) scorers run on an empty inventory. -/
def c3Oracles : Oracles :=
  { generateRaw := .ok ""
    render := fun _ h => .ok h
    compare := fun _ => .ok 0
    contentVal := fun h => .ok (simple_content_validation h ⟨[], [], []⟩)
    imageVal := fun h => .ok (validate_smart_image_implementation h [])
    refineRaw := fun _ h _ => .ok h
    finalRender := fun h => .ok h }

/-- C3 counterexample: when the generator returns an empty string, `_extract_html`
falls back to the stripped raw text and `_fix_html` leaves it unchanged, so the
session completes with `success = true` and an *empty* `html` field — not a
non-empty standalone document as the claim requires for every input. -/
theorem always_displayable_counterexample :
    clone_website c3Oracles 3 (85/100) "s" = .ok "" 0 0 1 3 ∧
    (clone_website c3Oracles 3 (85/100) "s").success = true ∧
    (clone_website c3Oracles 3 (85/100) "s").htmlOut = "" := by
  have h : clone_website c3Oracles 3 (85/100) "s" = .ok "" 0 0 1 3 := by
    with_unfolding_all decide
  exact ⟨h, by rw [h]; rfl, by rw [h]; rfl⟩

/-- C3 witness: the fatal-path theorem applied concretely — a request with no
screenshot yields the failure result carrying the synthesized error page, which
is non-empty, starts with the DOCTYPE declaration and ends with the closing
html tag. -/
theorem fatal_paths_always_render_w :
    clone_website c3Oracles 3 (85/100) "" =
      .failed "No screenshot data available"
        (create_error_page "No screenshot data available") ∧
    create_error_page "No screenshot data available" ≠ "" ∧
    isPre "<!DOCTYPE html>".data
      (create_error_page "No screenshot data available").data = true ∧
    endsL (create_error_page "No screenshot data available").data "</html>".data = true :=
  ⟨fatal_paths_always_render.2.1 c3Oracles 3 (85/100),
    (fatal_paths_always_render.1 "No screenshot data available").1,
    (fatal_paths_always_render.1 "No screenshot data available").2.1,
    (fatal_paths_always_render.1 "No screenshot data available").2.2⟩

/-- C9 (amended): on a run whose initial generation and initial scoring succeed,
the reported scores of the success result are a fresh re-score (visual, content,
asset) of the best-so-far candidate's markup; if that final re-score block
raises, the session still succeeds but reports the best *combined* score so far
as the visual-similarity figure together with the iteration-0 (initial) content
and asset scores — not the per-signal last-known-good values the claim
describes (see the counterexample). -/
theorem final_rescore_and_fallback (o : Oracles) (maxIter : Nat) (qt : ℚ)
    (shot raw : String) (c0 i0 : ℚ)
    (hshot : shot ≠ "") (hgen : o.generateRaw = .ok raw)
    (hc0 : o.contentVal (extract_html raw) = .ok c0)
    (hi0 : o.imageVal (extract_html raw) = .ok i0) :
    (∀ fv fc fi,
      finalScores o (clone_loop o maxIter qt c0 (List.range' 1 maxIter)
          ⟨extract_html raw, extract_html raw, 0, []⟩).best = .ok (fv, fc, fi) →
      clone_website o maxIter qt shot =
        .ok (clone_loop o maxIter qt c0 (List.range' 1 maxIter)
              ⟨extract_html raw, extract_html raw, 0, []⟩).best fv fc fi
          (clone_loop o maxIter qt c0 (List.range' 1 maxIter)
              ⟨extract_html raw, extract_html raw, 0, []⟩).results.length) ∧
    (∀ e,
      finalScores o (clone_loop o maxIter qt c0 (List.range' 1 maxIter)
          ⟨extract_html raw, extract_html raw, 0, []⟩).best = .error e →
      clone_website o maxIter qt shot =
        .ok (clone_loop o maxIter qt c0 (List.range' 1 maxIter)
              ⟨extract_html raw, extract_html raw, 0, []⟩).best
          (clone_loop o maxIter qt c0 (List.range' 1 maxIter)
              ⟨extract_html raw, extract_html raw, 0, []⟩).bestSim c0 i0
          (clone_loop o maxIter qt c0 (List.range' 1 maxIter)
              ⟨extract_html raw, extract_html raw, 0, []⟩).results.length) := by
  constructor
  · intro fv fc fi hfin
    unfold clone_website clone_website_e
    rw [if_neg hshot, hgen]
    simp only [hc0, hi0, hfin]
  · intro e hfin
    unfold clone_website clone_website_e
    rw [if_neg hshot, hgen]
    simp only [hc0, hi0, hfin]

/-- Oracles on which iteration 1 scores visual 1, content 1, asset 0 and the
final re-render raises. -/
def c9Oracles : Oracles :=
  { generateRaw := .ok "A"
    render := fun _ h => .ok h
    compare := fun _ => .ok 1
    contentVal := fun _ => .ok 1
    imageVal := fun _ => .ok 0
    refineRaw := fun _ h _ => .ok h
    finalRender := fun _ => .error "final render crashed" }

/-- C9 counterexample: the single iteration's recorded visual score is 1, but
after the final re-score raises the result reports visual similarity 9/10 —
the best *combined* score (0.6·1 + 0.3·1 + 0.1·0) — so the fallback does not
report the last known good value of the visual signal. -/
theorem final_rescore_fallback_counterexample :
    clone_website c9Oracles 1 (85/100) "s" = .ok "A" (9/10) 1 0 1 ∧
    (clone_loop c9Oracles 1 (85/100) 1 (List.range' 1 1) ⟨"A", "A", 0, []⟩).results =
      [⟨1, 1, 1, 0, 9/10⟩] ∧
    (9/10 : ℚ) ≠ 1 := by
  refine ⟨by with_unfolding_all decide, by with_unfolding_all decide, by norm_num⟩

/-- C9 witness: the fallback branch of the re-score theorem applied to the
concrete failing-final-render run. -/
theorem final_rescore_and_fallback_w :
    clone_website c9Oracles 1 (85/100) "s" =
      .ok (clone_loop c9Oracles 1 (85/100) 1 (List.range' 1 1)
            ⟨extract_html "A", extract_html "A", 0, []⟩).best
        (clone_loop c9Oracles 1 (85/100) 1 (List.range' 1 1)
            ⟨extract_html "A", extract_html "A", 0, []⟩).bestSim 1 0
        (clone_loop c9Oracles 1 (85/100) 1 (List.range' 1 1)
            ⟨extract_html "A", extract_html "A", 0, []⟩).results.length :=
  (final_rescore_and_fallback c9Oracles 1 (85/100) "s" "A" 1 0 (by decide) rfl rfl rfl).2
    "final render crashed" rfl

/-- C10: an image whose original source is an inline `data:` URL receives the
synthetic picsum placeholder as its resolved URL — which always contains
`picsum.photos` — and for any image whose resolved URL contains
`picsum.photos` the asset scorer's 0.8 trailing-path-segment branch is
unreachable: its award is either exactly 1 (awarded precisely on a verbatim
occurrence of the resolved URL or of the original source URL in the candidate)
or exactly 0, never 0.8. -/
theorem picsum_placeholder_no_partial_credit :
    (∀ d : ImageDesc, isPre "data:".data d.src.data = true →
      containsS (classifyOne d).actualUrl "picsum.photos" = true) ∧
    (∀ (html : String) (img : ImgData),
      containsS img.actualUrl "picsum.photos" = true →
      (imageAward html img = 1 ∨ imageAward html img = 0) ∧
      imageAward html img ≠ 8/10 ∧
      (imageAward html img = 1 ↔
        (img.actualUrl ≠ "" ∧ containsS html img.actualUrl = true) ∨
        (img.base.src ≠ "" ∧ containsS html img.base.src = true))) := by
  constructor
  · intro d hdata
    have hurl : (classifyOne d).actualUrl = placeholderUrl d.width d.height := by
      simp only [classifyOne]
      unfold actualUrlOf
      rw [if_neg]
      rintro ⟨-, hf⟩
      rw [hdata] at hf
      cases hf
    rw [hurl]
    unfold containsS placeholderUrl
    simp only [str_data_append, List.append_assoc]
    exact subStr_append_left _ (by decide)
  · intro html img hpic
    have h18 : (1 : ℚ) ≠ 8/10 := by norm_num
    have h08 : (0 : ℚ) ≠ 8/10 := by norm_num
    have h10 : (1 : ℚ) ≠ 0 := by norm_num
    unfold imageAward
    split_ifs with h1 h2 h3 h4
    · exact ⟨Or.inl rfl, h18, by simp [h1]⟩
    · exact ⟨Or.inl rfl, h18, by simp [h2]⟩
    · exact absurd hpic (by simp [h3.2])
    · exact absurd hpic (by simp [h3.2])
    · refine ⟨Or.inr rfl, h08, ?_⟩
      constructor
      · intro h
        exact absurd h.symm h10
      · rintro (h | h)
        · exact absurd h h1
        · exact absurd h h2

/-- C10 witness: the theorem applied to a concrete 50×50 inline-data image: its
resolved URL is the picsum placeholder, and against a candidate containing
neither that placeholder nor the data URL the award is exactly 0 (the partial
0.8 branch never fires). -/
theorem picsum_placeholder_no_partial_credit_w :
    containsS (classifyOne ⟨50, 50, "data:image/png;base64,xyz", "Acme logo", "", none⟩).actualUrl
      "picsum.photos" = true ∧
    imageAward "no relevant content"
      (classifyOne ⟨50, 50, "data:image/png;base64,xyz", "Acme logo", "", none⟩) = 0 := by
  have h1 := picsum_placeholder_no_partial_credit.1
    ⟨50, 50, "data:image/png;base64,xyz", "Acme logo", "", none⟩ (by decide)
  have h2 := (picsum_placeholder_no_partial_credit.2 "no relevant content"
    (classifyOne ⟨50, 50, "data:image/png;base64,xyz", "Acme logo", "", none⟩) h1).1
  rcases h2 with h2 | h2
  · have h3 := (picsum_placeholder_no_partial_credit.2 "no relevant content"
      (classifyOne ⟨50, 50, "data:image/png;base64,xyz", "Acme logo", "", none⟩) h1).2.2.1 h2
    rcases h3 with ⟨-, hc⟩ | ⟨-, hc⟩ <;> revert hc <;> decide
  · exact ⟨h1, h2⟩
